import Mathlib

/-!
Verification of the OpenShift AI configuration module
(`src/openshift-ai/config.py`) of the Nvidia-data-flywheel repository.

The module defines a fixed namespace string, a table of service-endpoint
URL constants built from it, and a routine `configure_environment` that
writes eight of them into the process environment and prints a
confirmation.  The process environment is embedded as a total map from
variable names to optional string values; `os.environ[k] = v` becomes a
pointwise functional update.
-/

namespace FlywheelConfig

/-- The process environment: a map from variable names to optional values. -/
def Env : Type := String → Option String

/-- `os.environ[k] = v`: functional update of the environment at key `k`. -/
def setEnv (e : Env) (k v : String) : Env :=
  fun k' => if k' = k then some v else e k'

/-- `NAMESPACE = "hacohen-flywheel"` (config.py line 9). -/
def NAMESPACE : String := "hacohen-flywheel"

/-- `API_BASE_URL` (config.py line 12). -/
def API_BASE_URL : String :=
  "http://df-api-service." ++ NAMESPACE ++ ".svc.cluster.local:8000"

/-- `ELASTICSEARCH_URL` (config.py line 13). -/
def ELASTICSEARCH_URL : String :=
  "http://elasticsearch-master." ++ NAMESPACE ++ ".svc.cluster.local:9200"

/-- `MONGODB_URL` (config.py line 14). -/
def MONGODB_URL : String :=
  "mongodb://flywheel-infra-mongodb." ++ NAMESPACE ++ ".svc.cluster.local:27017"

/-- `REDIS_URL` (config.py line 15). -/
def REDIS_URL : String :=
  "redis://flywheel-infra-redis-master." ++ NAMESPACE ++ ".svc.cluster.local:6379/0"

/-- `MLFLOW_TRACKING_URI` (config.py line 16). -/
def MLFLOW_TRACKING_URI : String :=
  "http://df-mlflow-service." ++ NAMESPACE ++ ".svc.cluster.local:5000"

/-- `NEMO_BASE_URL` (config.py line 19). -/
def NEMO_BASE_URL : String :=
  "http://nemo-gateway." ++ NAMESPACE ++ ".svc.cluster.local"

/-- `NIM_BASE_URL` (config.py line 20). -/
def NIM_BASE_URL : String :=
  "http://nemo-gateway." ++ NAMESPACE ++ ".svc.cluster.local"

/-- `DATASTORE_BASE_URL` (config.py line 21). -/
def DATASTORE_BASE_URL : String :=
  "http://nemodatastore-sample." ++ NAMESPACE ++ ".svc.cluster.local:8000"

/-- `NIM_EXTERNAL_URL` (config.py lines 24-26): computed but never exported. -/
def NIM_EXTERNAL_URL : String :=
  "http://nemo-gateway-hacohen-flywheel.apps.ai-dev05.kni.syseng.devcluster.openshift.com"

/-- The eight environment-variable names `configure_environment` writes,
in source order (config.py lines 31-38). -/
def envKeys : List String :=
  ["API_BASE_URL", "ELASTICSEARCH_URL", "MONGODB_URL", "REDIS_URL",
   "MLFLOW_TRACKING_URI", "NEMO_BASE_URL", "NIM_BASE_URL", "DATASTORE_BASE_URL"]

/-- The environment effect of `configure_environment` (config.py lines 29-38):
the eight `os.environ` assignments, in source order. -/
def configure_environment (e : Env) : Env :=
  setEnv (setEnv (setEnv (setEnv (setEnv (setEnv (setEnv (setEnv e
    "API_BASE_URL" API_BASE_URL)
    "ELASTICSEARCH_URL" ELASTICSEARCH_URL)
    "MONGODB_URL" MONGODB_URL)
    "REDIS_URL" REDIS_URL)
    "MLFLOW_TRACKING_URI" MLFLOW_TRACKING_URI)
    "NEMO_BASE_URL" NEMO_BASE_URL)
    "NIM_BASE_URL" NIM_BASE_URL)
    "DATASTORE_BASE_URL" DATASTORE_BASE_URL

/-- The confirmation lines `configure_environment` prints
(config.py lines 40-45). -/
def configureOutput : List String :=
  ["✓ OpenShift AI environment configured",
   "  Namespace: " ++ NAMESPACE,
   "  API URL: " ++ API_BASE_URL,
   "  Elasticsearch: " ++ ELASTICSEARCH_URL,
   "  MLflow: " ++ MLFLOW_TRACKING_URI,
   "  NeMo Gateway: " ++ NEMO_BASE_URL]

/-- One `os.environ[k] = v` assignment, in a fallible shape: the source has
no raise statement and Python string assignment into `os.environ` with
string key and value has no error branch, so the step always succeeds. -/
def setEnvE (e : Env) (k v : String) : Except String Env :=
  Except.ok (setEnv e k v)

/-- `configure_environment` as a chain of fallible steps, mirroring the
eight assignments of config.py lines 31-38. -/
def configureEnvironmentE (e : Env) : Except String Env := do
  let e ← setEnvE e "API_BASE_URL" API_BASE_URL
  let e ← setEnvE e "ELASTICSEARCH_URL" ELASTICSEARCH_URL
  let e ← setEnvE e "MONGODB_URL" MONGODB_URL
  let e ← setEnvE e "REDIS_URL" REDIS_URL
  let e ← setEnvE e "MLFLOW_TRACKING_URI" MLFLOW_TRACKING_URI
  let e ← setEnvE e "NEMO_BASE_URL" NEMO_BASE_URL
  let e ← setEnvE e "NIM_BASE_URL" NIM_BASE_URL
  let e ← setEnvE e "DATASTORE_BASE_URL" DATASTORE_BASE_URL
  Except.ok e

/-- The module top level (config.py line 49): importing the module invokes
`configure_environment` once on the inherited environment. -/
def importModule (e : Env) : Env := configure_environment e

/-- Every URL constant the module defines: the eight exported values and
`NIM_EXTERNAL_URL` (config.py lines 12-26). -/
def moduleUrlConstants : List String :=
  [API_BASE_URL, ELASTICSEARCH_URL, MONGODB_URL, REDIS_URL,
   MLFLOW_TRACKING_URI, NEMO_BASE_URL, NIM_BASE_URL, DATASTORE_BASE_URL,
   NIM_EXTERNAL_URL]

/-- `needle` occurs as a contiguous substring of `hay` (on character lists). -/
def infixOf (needle : List Char) : List Char → Bool
  | [] => needle.isPrefixOf []
  | c :: rest => needle.isPrefixOf (c :: rest) || infixOf needle rest

/-- Drop the characters of a URL through the first `"://"`. -/
def afterScheme : List Char → List Char
  | [] => []
  | ':' :: '/' :: '/' :: rest => rest
  | _ :: rest => afterScheme rest

/-- The hostname of a URL: the characters after `"://"` up to the first
`:` (port) or `/` (path). -/
def hostOf (s : String) : List Char :=
  (afterScheme s.data).takeWhile (fun c => !(c == ':') && !(c == '/'))

/-- Stated from the spec's words, for comparison with the source constants:
the documented URL template
`<scheme>://<service-host>.<namespace>.svc.cluster.local:<port>[/<path>]`,
with a nonempty scheme, a nonempty service host, a nonempty all-digit port,
and an optional path beginning with `/`. -/
def specUrlTemplate (s : String) : Prop :=
  ∃ scheme host port path : List Char,
    scheme ≠ [] ∧ host ≠ [] ∧ port ≠ [] ∧ (∀ c ∈ port, c.isDigit = true) ∧
    (path = [] ∨ path.head? = some '/') ∧
    s.data = scheme ++ (String.data "://") ++ host ++ (String.data ".") ++
      NAMESPACE.data ++ (String.data ".svc.cluster.local:") ++ port ++ path

/-- Stated from the spec's words: the template with the port (and its
leading colon) omitted — scheme, then a host qualified by the namespace
and `.svc.cluster.local`, and nothing after. -/
def specUrlTemplateNoPort (s : String) : Prop :=
  ∃ scheme host : List Char,
    scheme ≠ [] ∧ host ≠ [] ∧
    s.data = scheme ++ (String.data "://") ++ host ++ (String.data ".") ++
      NAMESPACE.data ++ (String.data ".svc.cluster.local")

/-- The empty environment, used as a concrete instance. -/
def emptyEnv : Env := fun _ => none

/-- C1: for every initial environment, after `configure_environment` each of
the eight named environment variables is set and equals the corresponding
module-level string constant of the same name. -/
theorem configure_sets_all_eight (e : Env) :
    configure_environment e "API_BASE_URL" = some API_BASE_URL ∧
    configure_environment e "ELASTICSEARCH_URL" = some ELASTICSEARCH_URL ∧
    configure_environment e "MONGODB_URL" = some MONGODB_URL ∧
    configure_environment e "REDIS_URL" = some REDIS_URL ∧
    configure_environment e "MLFLOW_TRACKING_URI" = some MLFLOW_TRACKING_URI ∧
    configure_environment e "NEMO_BASE_URL" = some NEMO_BASE_URL ∧
    configure_environment e "NIM_BASE_URL" = some NIM_BASE_URL ∧
    configure_environment e "DATASTORE_BASE_URL" = some DATASTORE_BASE_URL :=
  ⟨rfl, rfl, rfl, rfl, rfl, rfl, rfl, rfl⟩

/-- C2 counterexample: `NEMO_BASE_URL` does not match the documented
template, because it carries no port (its only colon is the scheme's). -/
theorem nemo_url_no_port_counterexample : ¬ specUrlTemplate NEMO_BASE_URL := by
  rintro ⟨scheme, host, port, path, -, -, -, -, -, heq⟩
  have hcount : NEMO_BASE_URL.data.count ':' = 1 := by decide
  rw [heq] at hcount
  rw [List.count_append, List.count_append, List.count_append,
      List.count_append, List.count_append, List.count_append,
      List.count_append] at hcount
  have h1 : (String.data "://").count ':' = 1 := by decide
  have h2 : (String.data ".svc.cluster.local:").count ':' = 1 := by decide
  omega

/-- C2 amended: six of the eight exported URL constants match the documented
template (scheme, namespace-qualified host, port, optional path), while
`NEMO_BASE_URL` and `NIM_BASE_URL` match the template with the port and its
colon omitted. -/
theorem exported_urls_match_template :
    specUrlTemplate API_BASE_URL ∧ specUrlTemplate ELASTICSEARCH_URL ∧
    specUrlTemplate MONGODB_URL ∧ specUrlTemplate REDIS_URL ∧
    specUrlTemplate MLFLOW_TRACKING_URI ∧ specUrlTemplate DATASTORE_BASE_URL ∧
    specUrlTemplateNoPort NEMO_BASE_URL ∧ specUrlTemplateNoPort NIM_BASE_URL :=
  ⟨⟨String.data "http", String.data "df-api-service", String.data "8000", [],
    by decide, by decide, by decide, by decide, Or.inl rfl, by decide⟩,
   ⟨String.data "http", String.data "elasticsearch-master", String.data "9200", [],
    by decide, by decide, by decide, by decide, Or.inl rfl, by decide⟩,
   ⟨String.data "mongodb", String.data "flywheel-infra-mongodb", String.data "27017", [],
    by decide, by decide, by decide, by decide, Or.inl rfl, by decide⟩,
   ⟨String.data "redis", String.data "flywheel-infra-redis-master", String.data "6379",
    String.data "/0",
    by decide, by decide, by decide, by decide, Or.inr (by decide), by decide⟩,
   ⟨String.data "http", String.data "df-mlflow-service", String.data "5000", [],
    by decide, by decide, by decide, by decide, Or.inl rfl, by decide⟩,
   ⟨String.data "http", String.data "nemodatastore-sample", String.data "8000", [],
    by decide, by decide, by decide, by decide, Or.inl rfl, by decide⟩,
   ⟨String.data "http", String.data "nemo-gateway", by decide, by decide, by decide⟩,
   ⟨String.data "http", String.data "nemo-gateway", by decide, by decide, by decide⟩⟩

/-- C3: `configure_environment` is idempotent — invoking it twice yields an
environment state identical to invoking it once. -/
theorem configure_idempotent (e : Env) :
    configure_environment (configure_environment e) = configure_environment e := by
  funext k
  simp only [configure_environment, setEnv]
  simp_all

/-- C4: `configure_environment` writes exactly the eight named variables —
every key outside `envKeys` keeps its prior mapping. -/
theorem configure_frame (e : Env) (k : String) (h : k ∉ envKeys) :
    configure_environment e k = e k := by
  simp only [envKeys, List.mem_cons, List.not_mem_nil, or_false, not_or] at h
  obtain ⟨h1, h2, h3, h4, h5, h6, h7, h8⟩ := h
  simp [configure_environment, setEnv, h1, h2, h3, h4, h5, h6, h7, h8]

/-- C4 witness: the key `"HOME"` is outside `envKeys` and is untouched. -/
theorem configure_frame_witness :
    "HOME" ∉ envKeys ∧ configure_environment emptyEnv "HOME" = emptyEnv "HOME" :=
  ⟨by decide, configure_frame emptyEnv "HOME" (by decide)⟩

/-- C5: `configure_environment` never writes `NIM_EXTERNAL_URL` — the key is
unchanged, and if it was unset before it stays unset. -/
theorem nim_external_not_exported (e : Env) :
    configure_environment e "NIM_EXTERNAL_URL" = e "NIM_EXTERNAL_URL" ∧
    (e "NIM_EXTERNAL_URL" = none →
      configure_environment e "NIM_EXTERNAL_URL" = none) :=
  ⟨rfl, fun h => h⟩

/-- C5 witness: starting from the empty environment, `NIM_EXTERNAL_URL`
remains unset after configuration. -/
theorem nim_external_not_exported_witness :
    emptyEnv "NIM_EXTERNAL_URL" = none ∧
    configure_environment emptyEnv "NIM_EXTERNAL_URL" = none :=
  ⟨rfl, (nim_external_not_exported emptyEnv).2 rfl⟩

/-- C6: the written values are independent of the initial environment — for
any two runs from any two initial states, each of the eight variables
receives the identical string. -/
theorem configure_values_deterministic (e₁ e₂ : Env) (k : String)
    (h : k ∈ envKeys) :
    configure_environment e₁ k = configure_environment e₂ k := by
  fin_cases h <;> rfl

/-- C6 witness: two different initial environments yield the same value for
`API_BASE_URL`. -/
theorem configure_values_deterministic_witness :
    "API_BASE_URL" ∈ envKeys ∧
    configure_environment emptyEnv "API_BASE_URL" =
      configure_environment (setEnv emptyEnv "API_BASE_URL" "other") "API_BASE_URL" :=
  ⟨by decide,
   configure_values_deterministic emptyEnv
     (setEnv emptyEnv "API_BASE_URL" "other") "API_BASE_URL" (by decide)⟩

/-- C7: `configure_environment` cannot fail — the fallible-shaped embedding
always returns `Except.ok`, with the same environment effect. -/
theorem configure_total (e : Env) :
    configureEnvironmentE e = Except.ok (configure_environment e) := rfl

/-- C8: importing the module configures the environment as a side effect —
after `importModule` the eight variables are already set to their computed
values with no further call. -/
theorem import_configures_environment (e : Env) :
    importModule e "API_BASE_URL" = some API_BASE_URL ∧
    importModule e "ELASTICSEARCH_URL" = some ELASTICSEARCH_URL ∧
    importModule e "MONGODB_URL" = some MONGODB_URL ∧
    importModule e "REDIS_URL" = some REDIS_URL ∧
    importModule e "MLFLOW_TRACKING_URI" = some MLFLOW_TRACKING_URI ∧
    importModule e "NEMO_BASE_URL" = some NEMO_BASE_URL ∧
    importModule e "NIM_BASE_URL" = some NIM_BASE_URL ∧
    importModule e "DATASTORE_BASE_URL" = some DATASTORE_BASE_URL :=
  ⟨rfl, rfl, rfl, rfl, rfl, rfl, rfl, rfl⟩

/-- C9: the namespace string occurs as a substring of the hostname of every
URL constant the module defines, `NIM_EXTERNAL_URL` included. -/
theorem namespace_in_every_hostname (u : String) (h : u ∈ moduleUrlConstants) :
    infixOf NAMESPACE.data (hostOf u) = true := by
  fin_cases h <;> decide

/-- C9 witness: the namespace occurs in the hostname of `NIM_EXTERNAL_URL`. -/
theorem namespace_in_every_hostname_witness :
    NIM_EXTERNAL_URL ∈ moduleUrlConstants ∧
    infixOf NAMESPACE.data (hostOf NIM_EXTERNAL_URL) = true :=
  ⟨by decide, namespace_in_every_hostname NIM_EXTERNAL_URL (by decide)⟩

/-- C10: `NEMO_BASE_URL` and `NIM_BASE_URL` are the same portless gateway
string, as constants and as environment values after configuration. -/
theorem nemo_nim_share_gateway (e : Env) :
    NEMO_BASE_URL = NIM_BASE_URL ∧
    NEMO_BASE_URL = "http://nemo-gateway.hacohen-flywheel.svc.cluster.local" ∧
    configure_environment e "NEMO_BASE_URL" = configure_environment e "NIM_BASE_URL" ∧
    configure_environment e "NEMO_BASE_URL" =
      some "http://nemo-gateway.hacohen-flywheel.svc.cluster.local" :=
  ⟨rfl, rfl, rfl, rfl⟩

end FlywheelConfig
